import Mathlib

/-!
Verification of the sweet-shop inventory application.

The repository is a React frontend plus a Django REST backend.  The frontend
sources (API adapter `api.js`, contexts, `SweetCard.jsx`, `Dashboard.jsx`,
`EditSweetForm.jsx`, `RestockForm.jsx`) are embedded directly from the source.
The Django backend that decides the inventory-service semantics (purchase,
restock, delete, update, search, access policy) is not among the provided
sources, so those operations are modelled from the specification (sections
4.1-4.3) and each such definition is marked `Modelled from the spec:`.
-/

namespace SweetShop

/-- One inventory record ("sweet"): identity, catalog data and stock, as in the
data model of the spec and the Django `Sweet` model described in
`FIELD_MAPPING.md`. -/
structure Sweet where
  id : Nat
  name : String
  category : String
  price : ℚ
  quantityInStock : Int
deriving DecidableEq, Repr

/-- The persistence abstraction: a finite collection of records. -/
abbrev Store := List Sweet

/-- The error taxonomy of spec section 7. -/
inductive ServiceError where
  | validationError
  | notFoundError
  | insufficientStockError
  | authorizationError
deriving DecidableEq, Repr

/-- A fresh id for a newly created record: one more than the largest id in
the store, hence distinct from every existing id. -/
def freshId (store : Store) : Nat :=
  (store.map Sweet.id).foldr max 0 + 1

/-- The characters of a string, lower-cased (JavaScript `toLowerCase`, the
case folding used by the search match). -/
def toLowerList (s : String) : List Char :=
  s.toList.map Char.toLower

/-- Whitespace trimming on both ends of a character list (JavaScript
`String.prototype.trim`). -/
def trimList (l : List Char) : List Char :=
  ((l.dropWhile Char.isWhitespace).reverse.dropWhile Char.isWhitespace).reverse

/-- The characters of a string after trimming whitespace on both ends; the
forms only ever test whether this is empty (`!value.trim()`). -/
def jsTrim (s : String) : List Char :=
  trimList s.toList

/-- Look a record up by id (the store contract `getById`). -/
def getById (store : Store) (id : Nat) : Option Sweet :=
  store.find? (fun x => x.id == id)

/-- Replace the record with the given id by `r`, leaving others unchanged. -/
def replaceById (store : Store) (id : Nat) (r : Sweet) : Store :=
  store.map (fun x => if x.id == id then r else x)

/-- Remove every record with the given id. -/
def removeById (store : Store) (id : Nat) : Store :=
  store.filter (fun x => !(x.id == id))

/-- Modelled from the spec: `purchase(id, quantity)` of InventoryService
(spec section 4.1); the Django endpoint implementing it is not among the
provided sources.  Fails with `NotFoundError` when the id is absent, with
`ValidationError` when the quantity is not a positive integer, with
`InsufficientStockError` when the quantity exceeds the current stock;
otherwise it atomically decrements `quantityInStock` by the quantity and
returns the updated record.  Errors leave the store unchanged
(all-or-nothing, spec section 7). -/
def purchaseSweet (store : Store) (id : Nat) (q : Int) :
    Except ServiceError Sweet × Store :=
  match getById store id with
  | none => (.error .notFoundError, store)
  | some r =>
    if q ≤ 0 then (.error .validationError, store)
    else if r.quantityInStock < q then (.error .insufficientStockError, store)
    else
      let r' : Sweet := { r with quantityInStock := r.quantityInStock - q }
      (.ok r', replaceById store id r')

/-- Modelled from the spec: `restock(id, quantity)` of InventoryService
(spec section 4.1); the Django endpoint implementing it is not among the
provided sources.  Quantity must be a positive integer (`ValidationError`
otherwise); increments `quantityInStock` by the quantity.  Errors leave the
store unchanged. -/
def restockSweet (store : Store) (id : Nat) (q : Int) :
    Except ServiceError Sweet × Store :=
  match getById store id with
  | none => (.error .notFoundError, store)
  | some r =>
    if q ≤ 0 then (.error .validationError, store)
    else
      let r' : Sweet := { r with quantityInStock := r.quantityInStock + q }
      (.ok r', replaceById store id r')

/-- Modelled from the spec: `delete(id)` of InventoryService (spec section
4.1); the Django endpoint implementing it is not among the provided sources.
Removes the record; a second delete of the same id is `NotFoundError`, not
success. -/
def deleteRecord (store : Store) (id : Nat) :
    Except ServiceError Unit × Store :=
  match getById store id with
  | none => (.error .notFoundError, store)
  | some _ => (.ok (), removeById store id)

/-- Modelled from the spec: `update(id, fields)` of InventoryService (spec
section 4.1); the Django endpoint implementing it is not among the provided
sources.  Full-replace semantics with the same field validation as create:
name/category must be non-empty after trimming, price > 0, quantity ≥ 0. -/
def updateRecord (store : Store) (id : Nat) (name category : String)
    (price : ℚ) (quantity : Int) : Except ServiceError Sweet × Store :=
  match getById store id with
  | none => (.error .notFoundError, store)
  | some r =>
    if jsTrim name = [] ∨ jsTrim category = [] ∨ price ≤ 0 ∨ quantity < 0 then
      (.error .validationError, store)
    else
      let r' : Sweet := { id := r.id, name := name, category := category,
                          price := price, quantityInStock := quantity }
      (.ok r', replaceById store id r')

/-- Modelled from the spec: `create(fields)` of InventoryService (spec
section 4.1); the Django endpoint implementing it and the AddSweetForm are
not among the provided sources.  Fails with `ValidationError` if name or
category is empty after trimming, price ≤ 0, or quantityInStock < 0; on
success assigns a fresh unique id and persists the record. -/
def createRecord (store : Store) (name category : String) (price : ℚ)
    (quantity : Int) : Except ServiceError Sweet × Store :=
  if jsTrim name = [] ∨ jsTrim category = [] ∨ price ≤ 0 ∨ quantity < 0 then
    (.error .validationError, store)
  else
    let r : Sweet := { id := freshId store, name := name, category := category,
                       price := price, quantityInStock := quantity }
    (.ok r, store ++ [r])

/-- Does `needle` occur as a contiguous sublist of the second argument? -/
def substrAux (needle : List Char) : List Char → Bool
  | [] => needle.isEmpty
  | c :: rest => needle.isPrefixOf (c :: rest) || substrAux needle rest

/-- Case-insensitive substring test: does `needle` occur in `hay`, ignoring
case? -/
def containsCI (hay needle : String) : Bool :=
  substrAux (toLowerList needle) (toLowerList hay)

/-- A record matches a query when the query occurs case-insensitively in its
name or in its category (spec section 4.1, `search`). -/
def matchesQuery (r : Sweet) (q : String) : Bool :=
  containsCI r.name q || containsCI r.category q

/-- Ordering of records by ascending id. -/
def idLe (a b : Sweet) : Prop := a.id ≤ b.id

instance : DecidableRel idLe := fun a b => Nat.decLe a.id b.id

instance : IsTotal Sweet idLe := ⟨fun a b => Nat.le_total a.id b.id⟩

instance : IsTrans Sweet idLe := ⟨fun _ _ _ => Nat.le_trans⟩

/-- Modelled from the spec: `list()` of InventoryService (spec section 4.1);
the Django endpoint implementing it is not among the provided sources.  All
records in stable ascending-id order. -/
def listRecords (store : Store) : List Sweet :=
  List.insertionSort idLe store

/-- Modelled from the spec: `search(query)` of InventoryService (spec section
4.1); the Django search endpoint is not among the provided sources (the
frontend `Dashboard.handleSearch` leaves non-empty queries as a TODO and
`ApiService.searchSweets` only forwards the query).  Case-insensitive
substring match against name and/or category over the stable ascending-id
listing. -/
def searchRecords (store : Store) (q : String) : List Sweet :=
  (listRecords store).filter (fun r => matchesQuery r q)

/-! ### Access policy (spec section 4.2) -/

/-- Caller roles of the access policy. -/
inductive Role where
  | anonymous
  | user
  | admin
deriving DecidableEq, Repr

/-- The inventory operations gated by the access policy. -/
inductive InvOp where
  | createOp
  | updateOp
  | deleteOp
  | restockOp
  | purchaseOp
  | listOp
  | searchOp
deriving DecidableEq, Repr

/-- Modelled from the spec: the AccessPolicy rules (spec section 4.2); the
Django permission classes implementing them are not among the provided
sources.  `list`/`search`/`purchase` require `user` or `admin`;
`create`/`update`/`delete`/`restock` require `admin`; `anonymous` is rejected
for all inventory operations. -/
def allowed : Role → InvOp → Bool
  | .anonymous, _ => false
  | .user, op =>
    match op with
    | .purchaseOp | .listOp | .searchOp => true
    | _ => false
  | .admin, _ => true

/-- Gate an operation behind the access policy: `AuthorizationError` when the
role is insufficient. -/
def authorize (role : Role) (op : InvOp) : Except ServiceError Unit :=
  if allowed role op then .ok () else .error .authorizationError

/-- A purchase issued by a caller with the given role: the access policy is
checked first, then the inventory-service purchase runs. -/
def purchaseAs (role : Role) (store : Store) (id : Nat) (q : Int) :
    Except ServiceError Sweet × Store :=
  match authorize role .purchaseOp with
  | .error e => (.error e, store)
  | .ok _ => purchaseSweet store id q

/-! ### Frontend embeddings (from the React sources under src/) -/

/-- Embeds `EditSweetForm.handleSubmit` (EditSweetForm.jsx): client-side
validation in source order.  `price` and `quantity` are the results of
`parseFloat`/`parseInt` on the form fields, with `none` standing for `NaN`.
On success the form submits the untrimmed name/category with the parsed
numbers. -/
def editFormSubmit (name category : String) (price : Option ℚ)
    (quantity : Option Int) : Except String (String × String × ℚ × Int) :=
  if jsTrim name = [] then .error "Sweet name is required"
  else if jsTrim category = [] then .error "Category is required"
  else
    match price with
    | none => .error "Please enter a valid price greater than 0"
    | some p =>
      if p ≤ 0 then .error "Please enter a valid price greater than 0"
      else
        match quantity with
        | none => .error "Please enter a valid quantity (0 or greater)"
        | some q =>
          if q < 0 then .error "Please enter a valid quantity (0 or greater)"
          else .ok (name, category, p, q)

/-- Embeds the quantity gate of `RestockForm.handleSubmit` (RestockForm.jsx):
the parsed quantity (`none` for `NaN`) is rejected when `NaN` or `≤ 0`. -/
def restockFormAccepts (quantity : Option Int) : Bool :=
  match quantity with
  | none => false
  | some n => decide (0 < n)

/-- Embeds `SweetCard.handleQuantityChange` (SweetCard.jsx): the raw input is
parsed with `parseInt` (`none` for `NaN`); `parseInt(...) || 1` coerces `NaN`
and `0` to `1` (JavaScript falsiness); the result is clamped with
`Math.min(Math.max(1, value), sweet.quantity)`. -/
def handleQuantityChange (input : Option Int) (stock : Int) : Int :=
  let value : Int :=
    match input with
    | none => 1
    | some v => if v = 0 then 1 else v
  min (max 1 value) stock

/-- Embeds the render guard of the purchase section in SweetCard.jsx: the
quantity input and Purchase button are rendered only when
`!(sweet.quantity === 0)`. -/
def purchaseSectionRendered (stock : Int) : Bool :=
  !(stock == 0)

/-- Embeds `AuthProvider.isAdmin` (AuthContext.jsx):
`user?.is_staff || user?.is_superuser || false`. -/
def isAdmin (is_staff is_superuser : Bool) : Bool :=
  is_staff || is_superuser

/-- A sweet object as the JavaScript layers see it: the frontend field
`quantity` and the backend field `quantity_in_stock` are both optional,
since each side of the adapter carries only one of them. -/
structure SweetJson where
  id : Nat
  name : String
  category : String
  price : ℚ
  quantity : Option Int
  quantity_in_stock : Option Int
deriving DecidableEq, Repr

/-- Embeds the outgoing transformation of `ApiService.addSweet` /
`ApiService.updateSweet` (api.js): copy `quantity` into `quantity_in_stock`
and delete `quantity`. -/
def toBackendSweet (s : SweetJson) : SweetJson :=
  { s with quantity_in_stock := s.quantity, quantity := none }

/-- Embeds `ApiService.transformSweetFromBackend` (api.js): spread the
backend object and set `quantity` from `quantity_in_stock`. -/
def transformSweetFromBackend (s : SweetJson) : SweetJson :=
  { s with quantity := s.quantity_in_stock }

/-- The fields of a parsed HTTP response body that
`ApiService.request` consults (`data.message`, `data.detail`); a plain-text
body has neither. -/
structure ResponseBody where
  message : Option String
  detail : Option String
deriving DecidableEq, Repr

/-- The outcome of the `fetch` call inside `ApiService.request`: either a
response (with its `ok` flag, status and parsed body) or a thrown
network/parse error carrying an optional message. -/
inductive FetchOutcome where
  | response (ok : Bool) (status : Nat) (body : ResponseBody)
  | thrown (message : Option String)
deriving DecidableEq, Repr

/-- The object `ApiService.request` returns to its caller. -/
structure ApiResult where
  success : Bool
  data : Option ResponseBody
  error : Option String
  status : Nat
deriving DecidableEq, Repr

/-- JavaScript `a || b` on strings: an absent or empty string is falsy and
falls through to `b`. -/
def jsOrString (a : Option String) (b : String) : String :=
  match a with
  | none => b
  | some s => if s = "" then b else s

/-- Embeds `ApiService.request` (api.js): a non-ok response yields
`{success: false, error, status}` with the error taken from the body's
`message` or `detail` or an HTTP-status default; a thrown error is caught
and yields `{success: false, error, status: 0}`; an ok response yields
`{success: true, data, status}`. -/
def request (o : FetchOutcome) : ApiResult :=
  match o with
  | .response ok status body =>
    if ok then
      { success := true, data := some body, error := none, status := status }
    else
      { success := false, data := none,
        error := some (jsOrString body.message
          (jsOrString body.detail ("HTTP error! status: " ++ toString status))),
        status := status }
  | .thrown msg =>
    { success := false, data := none,
      error := some (jsOrString msg "Network error occurred"), status := 0 }

/-! ### Helper lemmas -/

theorem getById_id {store : Store} {id : Nat} {r : Sweet}
    (h : getById store id = some r) : r.id = id := by
  have h' := List.find?_some h
  simpa using h'

theorem getById_replaceById {store : Store} {id : Nat} {r r' : Sweet}
    (h : getById store id = some r) (h' : r'.id = id) :
    getById (replaceById store id r') id = some r' := by
  induction store with
  | nil => simp [getById] at h
  | cons x xs ih =>
    by_cases hx : x.id = id
    · simp [getById, replaceById, List.find?, hx, h']
    · have hxb : (x.id == id) = false := by simpa using hx
      have h2 : getById xs id = some r := by
        simpa [getById, List.find?, hxb] using h
      have h3 := ih h2
      simpa [getById, replaceById, List.find?, hxb] using h3

theorem getById_removeById (store : Store) (id : Nat) :
    getById (removeById store id) id = none := by
  rw [getById, List.find?_eq_none]
  intro x hx
  have hx' := (List.mem_filter.mp hx).2
  simp at hx' ⊢
  exact hx'

theorem substrAux_nil (l : List Char) : substrAux [] l = true := by
  cases l <;> simp [substrAux, List.isPrefixOf]

theorem containsCI_empty (hay : String) : containsCI hay "" = true := by
  have h : toLowerList "" = [] := rfl
  rw [containsCI, h, substrAux_nil]

theorem matchesQuery_empty (r : Sweet) : matchesQuery r "" = true := by
  simp [matchesQuery, containsCI_empty]

theorem mem_listRecords {store : Store} {r : Sweet} :
    r ∈ listRecords store ↔ r ∈ store :=
  (List.perm_insertionSort idLe store).mem_iff

theorem sorted_listRecords (store : Store) :
    List.Sorted idLe (listRecords store) :=
  List.sorted_insertionSort idLe store

theorem searchRecords_empty_query (store : Store) :
    searchRecords store "" = listRecords store := by
  rw [searchRecords]
  exact List.filter_eq_self.mpr (fun r _ => matchesQuery_empty r)

/-! ### Claim theorems -/

/-- C3: for every create or update input, the operation fails with a
validation error if and only if the name is empty after trimming whitespace,
or the category is empty after trimming, or the price is ≤ 0, or the
quantity is < 0 (for update, given the id exists; the edit form enforces the
same condition client-side); on success the submitted values and the record
stored by create or update satisfy name and category non-empty after
trimming, price > 0 and quantity ≥ 0. -/
theorem create_update_validation_iff (name category : String) (p : ℚ)
    (q : Int) :
    ((∃ e, editFormSubmit name category (some p) (some q) = .error e) ↔
      jsTrim name = [] ∨ jsTrim category = [] ∨ p ≤ 0 ∨ q < 0)
    ∧ (∀ n c p' q',
        editFormSubmit name category (some p) (some q) = .ok (n, c, p', q') →
        jsTrim n ≠ [] ∧ jsTrim c ≠ [] ∧ 0 < p' ∧ 0 ≤ q')
    ∧ (∀ store id r' s',
        updateRecord store id name category p q = (.ok r', s') →
        jsTrim r'.name ≠ [] ∧ jsTrim r'.category ≠ [] ∧ 0 < r'.price ∧
          0 ≤ r'.quantityInStock)
    ∧ (∀ store id r, getById store id = some r →
        ((updateRecord store id name category p q).1 = .error .validationError ↔
          jsTrim name = [] ∨ jsTrim category = [] ∨ p ≤ 0 ∨ q < 0))
    ∧ (∀ store,
        ((createRecord store name category p q).1 = .error .validationError ↔
          jsTrim name = [] ∨ jsTrim category = [] ∨ p ≤ 0 ∨ q < 0))
    ∧ (∀ store r' s',
        createRecord store name category p q = (.ok r', s') →
        jsTrim r'.name ≠ [] ∧ jsTrim r'.category ≠ [] ∧ 0 < r'.price ∧
          0 ≤ r'.quantityInStock) := by
  refine ⟨?_, ?_, ?_, ?_, ?_, ?_⟩
  · constructor
    · rintro ⟨e, he⟩
      simp only [editFormSubmit] at he
      split_ifs at he <;> tauto
    · intro h
      simp only [editFormSubmit]
      split_ifs with h1 h2 h3 h4
      · exact ⟨_, rfl⟩
      · exact ⟨_, rfl⟩
      · exact ⟨_, rfl⟩
      · exact ⟨_, rfl⟩
      · rcases h with h | h | h | h <;> first
          | exact absurd h h1
          | exact absurd h h2
          | exact absurd h h3
          | exact absurd h h4
  · intro n c p' q' h
    simp only [editFormSubmit] at h
    split_ifs at h with h1 h2 h3 h4
    rcases h with ⟨rfl, rfl, rfl, rfl⟩
    exact ⟨h1, h2, by linarith [not_le.mp h3], by omega⟩
  · intro store id r' s' h
    simp only [updateRecord] at h
    split at h
    · simp at h
    · split_ifs at h with hv
      · simp at h
      · push_neg at hv
        obtain ⟨hn, hc, hp, hq⟩ := hv
        simp only [Prod.mk.injEq, Except.ok.injEq] at h
        rw [← h.1]
        exact ⟨hn, hc, hp, hq⟩
  · intro store id r hr
    simp only [updateRecord, hr]
    by_cases hv : jsTrim name = [] ∨ jsTrim category = [] ∨ p ≤ 0 ∨ q < 0
    · rw [if_pos hv]
      exact iff_of_true rfl hv
    · rw [if_neg hv]
      exact iff_of_false (by simp) hv
  · intro store
    by_cases hv : jsTrim name = [] ∨ jsTrim category = [] ∨ p ≤ 0 ∨ q < 0
    · simp only [createRecord]
      rw [if_pos hv]
      exact iff_of_true rfl hv
    · simp only [createRecord]
      rw [if_neg hv]
      exact iff_of_false (by simp) hv
  · intro store r' s' h
    simp only [createRecord] at h
    split_ifs at h with hv
    · simp at h
    · push_neg at hv
      obtain ⟨hn, hc, hp, hq⟩ := hv
      simp only [Prod.mk.injEq, Except.ok.injEq] at h
      rw [← h.1]
      exact ⟨hn, hc, hp, hq⟩

/-- C3 witness: the concrete valid input ("Chocolate Bar", "Chocolate",
price 2, quantity 5) is accepted by the edit form, and creating it in the
empty store succeeds with a record satisfying the stored-record invariant. -/
theorem create_update_validation_iff_witness :
    (jsTrim "Chocolate Bar" ≠ [] ∧ jsTrim "Chocolate" ≠ [] ∧ (0 : ℚ) < 2 ∧
      (0 : Int) ≤ 5)
    ∧ (jsTrim (⟨1, "Chocolate Bar", "Chocolate", 2, 5⟩ : Sweet).name ≠ []
      ∧ jsTrim (⟨1, "Chocolate Bar", "Chocolate", 2, 5⟩ : Sweet).category ≠ []
      ∧ 0 < (⟨1, "Chocolate Bar", "Chocolate", 2, 5⟩ : Sweet).price
      ∧ 0 ≤ (⟨1, "Chocolate Bar", "Chocolate", 2, 5⟩ : Sweet).quantityInStock) :=
  ⟨(create_update_validation_iff "Chocolate Bar" "Chocolate" 2 5).2.1
      "Chocolate Bar" "Chocolate" 2 5 rfl,
   (create_update_validation_iff "Chocolate Bar" "Chocolate" 2 5).2.2.2.2.2
      [] ⟨1, "Chocolate Bar", "Chocolate", 2, 5⟩
      [⟨1, "Chocolate Bar", "Chocolate", 2, 5⟩] rfl⟩

/-- C8: the outgoing adapter transformation (copy quantity into
quantity_in_stock and delete quantity) composed with the incoming
transformation (set quantity from quantity_in_stock) restores the original
quantity value of any sweet object carrying one. -/
theorem quantity_field_roundtrip (s : SweetJson) (q : Int)
    (h : s.quantity = some q) :
    (transformSweetFromBackend (toBackendSweet s)).quantity = some q
    ∧ (toBackendSweet s).quantity = none
    ∧ (toBackendSweet s).quantity_in_stock = some q
    ∧ (transformSweetFromBackend (toBackendSweet s)).name = s.name
    ∧ (transformSweetFromBackend (toBackendSweet s)).category = s.category
    ∧ (transformSweetFromBackend (toBackendSweet s)).price = s.price := by
  simp [toBackendSweet, transformSweetFromBackend, h]

/-- C8 witness: the round trip on a concrete sweet object with quantity 5. -/
theorem quantity_field_roundtrip_witness :
    (transformSweetFromBackend
        (toBackendSweet ⟨1, "Chocolate Bar", "Chocolate", 2, some 5, none⟩)).quantity =
      some 5
    ∧ (toBackendSweet
        ⟨1, "Chocolate Bar", "Chocolate", 2, some 5, none⟩).quantity = none
    ∧ (toBackendSweet
        ⟨1, "Chocolate Bar", "Chocolate", 2, some 5, none⟩).quantity_in_stock =
      some 5
    ∧ (transformSweetFromBackend
        (toBackendSweet ⟨1, "Chocolate Bar", "Chocolate", 2, some 5, none⟩)).name =
      (⟨1, "Chocolate Bar", "Chocolate", 2, some 5, none⟩ : SweetJson).name
    ∧ (transformSweetFromBackend
        (toBackendSweet ⟨1, "Chocolate Bar", "Chocolate", 2, some 5, none⟩)).category =
      (⟨1, "Chocolate Bar", "Chocolate", 2, some 5, none⟩ : SweetJson).category
    ∧ (transformSweetFromBackend
        (toBackendSweet ⟨1, "Chocolate Bar", "Chocolate", 2, some 5, none⟩)).price =
      (⟨1, "Chocolate Bar", "Chocolate", 2, some 5, none⟩ : SweetJson).price :=
  quantity_field_roundtrip ⟨1, "Chocolate Bar", "Chocolate", 2, some 5, none⟩ 5
    rfl

/-- C9: for positive displayed stock, the purchase-quantity handler always
yields a value in the closed interval from 1 to the stock, non-numeric input
is coerced to 1, and when the stock is 0 the purchase controls are not
rendered. -/
theorem purchase_quantity_clamped (input : Option Int) (stock : Int)
    (h : 1 ≤ stock) :
    1 ≤ handleQuantityChange input stock
    ∧ handleQuantityChange input stock ≤ stock
    ∧ handleQuantityChange none stock = 1
    ∧ purchaseSectionRendered 0 = false := by
  refine ⟨?_, ?_, ?_, rfl⟩
  · exact le_min (le_max_left _ _) h
  · exact min_le_right _ _
  · show min (max 1 1) stock = 1
    rw [max_self, min_eq_left h]

/-- C9 witness: with stock 5, an over-large input 7 and a non-numeric input
are both clamped into the interval. -/
theorem purchase_quantity_clamped_witness :
    1 ≤ handleQuantityChange (some 7) 5
    ∧ handleQuantityChange (some 7) 5 ≤ 5
    ∧ handleQuantityChange none 5 = 1
    ∧ purchaseSectionRendered 0 = false :=
  purchase_quantity_clamped (some 7) 5 (by decide)

/-- C10: the request helper is total over fetch outcomes: a non-ok response
yields success = false with the error taken from the body message or detail
or an HTTP status default, and the response status; an ok response yields
success = true with the data; a thrown network or parse error is caught and
yields success = false with status 0; success is true exactly for ok
responses. -/
theorem request_total_shape :
    (∀ status body, request (.response false status body) =
      { success := false, data := none,
        error := some (jsOrString body.message
          (jsOrString body.detail ("HTTP error! status: " ++ toString status))),
        status := status })
    ∧ (∀ status body, request (.response true status body) =
      { success := true, data := some body, error := none, status := status })
    ∧ (∀ m, request (.thrown m) =
      { success := false, data := none,
        error := some (jsOrString m "Network error occurred"), status := 0 })
    ∧ (∀ o, (request o).success = true ↔
        ∃ status body, o = .response true status body) := by
  refine ⟨fun _ _ => rfl, fun _ _ => rfl, fun _ => rfl, ?_⟩
  intro o
  cases o with
  | response ok status body => cases ok <;> simp [request]
  | thrown m => simp [request]

/-- C1 counterexample: on a record with stock 5, the purchase of quantity 0
satisfies q ≤ stock but fails with a validation error instead of succeeding,
because the quantity must be a positive integer. -/
theorem purchase_zero_quantity_cex :
    getById [⟨1, "Chocolate Bar", "Chocolate", 2, 5⟩] 1 =
      some ⟨1, "Chocolate Bar", "Chocolate", 2, 5⟩
    ∧ (0 : Int) ≤ (5 : Int)
    ∧ (purchaseSweet [⟨1, "Chocolate Bar", "Chocolate", 2, 5⟩] 1 0).1 =
        .error .validationError := by
  refine ⟨rfl, by decide, rfl⟩

/-- C1 (amended): for every record with non-negative stock and every
purchase(id, q) with positive q: if q ≤ stock, the purchase succeeds and the
resulting stock is the old value minus q; if q > stock, the purchase fails
with InsufficientStockError and the store (hence the record) is completely
unchanged. -/
theorem purchase_decrements_or_fails (store : Store) (id : Nat) (q : Int)
    (r : Sweet) (hr : getById store id = some r)
    (hstock : 0 ≤ r.quantityInStock) :
    (1 ≤ q → q ≤ r.quantityInStock →
      purchaseSweet store id q =
        (.ok { r with quantityInStock := r.quantityInStock - q },
         replaceById store id { r with quantityInStock := r.quantityInStock - q }))
    ∧ (r.quantityInStock < q →
      purchaseSweet store id q = (.error .insufficientStockError, store)) := by
  constructor
  · intro h1 h2
    simp only [purchaseSweet, hr]
    rw [if_neg (by omega), if_neg (by omega)]
  · intro h
    simp only [purchaseSweet, hr]
    rw [if_neg (by omega), if_pos h]

/-- C1 witness: purchasing 3 from a concrete record with stock 5 yields the
record with stock 2, and purchasing 7 from it fails with
InsufficientStockError leaving the store unchanged. -/
theorem purchase_decrements_or_fails_witness :
    purchaseSweet [⟨1, "Chocolate Bar", "Chocolate", 2, 5⟩] 1 3 =
      (.ok ⟨1, "Chocolate Bar", "Chocolate", 2, 2⟩,
       [⟨1, "Chocolate Bar", "Chocolate", 2, 2⟩])
    ∧ purchaseSweet [⟨1, "Chocolate Bar", "Chocolate", 2, 5⟩] 1 7 =
      (.error .insufficientStockError,
       [⟨1, "Chocolate Bar", "Chocolate", 2, 5⟩]) := by
  constructor
  · have h := (purchase_decrements_or_fails
      [⟨1, "Chocolate Bar", "Chocolate", 2, 5⟩] 1 3
      ⟨1, "Chocolate Bar", "Chocolate", 2, 5⟩ rfl (by decide)).1
      (by decide) (by decide)
    rw [h]; rfl
  · have h := (purchase_decrements_or_fails
      [⟨1, "Chocolate Bar", "Chocolate", 2, 5⟩] 1 7
      ⟨1, "Chocolate Bar", "Chocolate", 2, 5⟩ rfl (by decide)).2
      (by decide)
    rw [h]

/-- C2: purchases of one record serialize (the spec mandates the
decrement-and-check be atomic), so a concurrent pair is equivalent to the two
purchases in some order.  For a record with stock 5 and two purchase(id, 3)
calls, whichever runs first succeeds leaving stock 2 and the other fails
with InsufficientStockError leaving the store unchanged; in general two
serialized purchases can both succeed only when their combined quantity is
at most the initial stock. -/
theorem concurrent_purchase_serialized :
    (∀ store id r, getById store id = some r → r.quantityInStock = 5 →
      purchaseSweet store id 3 =
        (.ok { r with quantityInStock := 2 },
         replaceById store id { r with quantityInStock := 2 })
      ∧ purchaseSweet (replaceById store id { r with quantityInStock := 2 })
          id 3 =
        (.error .insufficientStockError,
         replaceById store id { r with quantityInStock := 2 })
      ∧ getById (replaceById store id { r with quantityInStock := 2 }) id =
          some { r with quantityInStock := 2 })
    ∧ (∀ store id q1 q2 a s1 b s2,
        purchaseSweet store id q1 = (.ok a, s1) →
        purchaseSweet s1 id q2 = (.ok b, s2) →
        ∃ r, getById store id = some r ∧ q1 + q2 ≤ r.quantityInStock) := by
  constructor
  · intro store id r hr h5
    have hid0 : r.id = id := getById_id hr
    have hget2 : getById (replaceById store id { r with quantityInStock := 2 })
        id = some { r with quantityInStock := 2 } :=
      getById_replaceById hr
        (show ({ r with quantityInStock := 2 } : Sweet).id = id from hid0)
    refine ⟨?_, ?_, hget2⟩
    · simp only [purchaseSweet, hr]
      rw [if_neg (by omega), if_neg (by omega)]
      have h32 : r.quantityInStock - 3 = 2 := by omega
      rw [h32]
    · simp only [purchaseSweet, hget2]
      have hlt : ({ r with quantityInStock := (2 : Int) } : Sweet).quantityInStock < 3 := by
        show (2 : Int) < 3
        decide
      rw [if_neg (by show ¬((3 : Int) ≤ 0); decide), if_pos hlt]
  · intro store id q1 q2 a s1 b s2 h1 h2
    cases hg : getById store id with
    | none => simp [purchaseSweet, hg] at h1
    | some r =>
      simp only [purchaseSweet, hg] at h1
      by_cases hq1 : q1 ≤ 0
      · rw [if_pos hq1] at h1
        simp at h1
      · rw [if_neg hq1] at h1
        by_cases hins1 : r.quantityInStock < q1
        · rw [if_pos hins1] at h1
          simp at h1
        · rw [if_neg hins1] at h1
          simp only [Prod.mk.injEq, Except.ok.injEq] at h1
          obtain ⟨ha, hs1⟩ := h1
          have hid0 : r.id = id := getById_id hg
          have hget2 : getById s1 id =
              some { r with quantityInStock := r.quantityInStock - q1 } := by
            rw [← hs1]
            exact getById_replaceById hg
              (show ({ r with quantityInStock := r.quantityInStock - q1 } : Sweet).id = id
                from hid0)
          simp only [purchaseSweet, hget2] at h2
          by_cases hq2 : q2 ≤ 0
          · rw [if_pos hq2] at h2
            simp at h2
          · rw [if_neg hq2] at h2
            by_cases hins2 : ({ r with quantityInStock := r.quantityInStock - q1 } : Sweet).quantityInStock < q2
            · rw [if_pos hins2] at h2
              simp at h2
            · have hred : ({ r with quantityInStock := r.quantityInStock - q1 } : Sweet).quantityInStock =
                  r.quantityInStock - q1 := rfl
              rw [hred] at hins2
              exact ⟨r, rfl, by omega⟩

/-- C2 witness: the concrete stock-5 record with two serialized
purchase(id, 3) calls: the first succeeds leaving stock 2, the second fails
with InsufficientStockError. -/
theorem concurrent_purchase_serialized_witness :
    purchaseSweet [⟨1, "Chocolate Bar", "Chocolate", 2, 5⟩] 1 3 =
      (.ok ⟨1, "Chocolate Bar", "Chocolate", 2, 2⟩,
       [⟨1, "Chocolate Bar", "Chocolate", 2, 2⟩])
    ∧ purchaseSweet [⟨1, "Chocolate Bar", "Chocolate", 2, 2⟩] 1 3 =
      (.error .insufficientStockError,
       [⟨1, "Chocolate Bar", "Chocolate", 2, 2⟩]) := by
  have h := concurrent_purchase_serialized.1
    [⟨1, "Chocolate Bar", "Chocolate", 2, 5⟩] 1
    ⟨1, "Chocolate Bar", "Chocolate", 2, 5⟩ rfl rfl
  constructor
  · rw [h.1]; rfl
  · exact h.2.1

/-- C4: search returns exactly the records whose name or category contains
the query as a case-insensitive substring; the empty query returns the full
listing, which is in ascending id order; the result is a function of the
store state, hence deterministic. -/
theorem search_matches_name_or_category (store : Store) (q : String)
    (r : Sweet) :
    (r ∈ searchRecords store q ↔
      r ∈ store ∧ (containsCI r.name q = true ∨ containsCI r.category q = true))
    ∧ searchRecords store "" = listRecords store
    ∧ List.Sorted idLe (listRecords store)
    ∧ (r ∈ listRecords store ↔ r ∈ store) := by
  refine ⟨?_, searchRecords_empty_query store, sorted_listRecords store,
    mem_listRecords⟩
  rw [searchRecords, List.mem_filter, mem_listRecords]
  simp [matchesQuery]

/-- C5: the access policy rejects anonymous callers for every inventory
operation with AuthorizationError; a user-role caller is rejected for
create, update, delete and restock, while purchase, list and search pass the
policy gate and a user purchase behaves exactly as the inventory-service
purchase on valid input. -/
theorem access_policy_matrix :
    (∀ op, authorize Role.anonymous op = .error .authorizationError)
    ∧ authorize Role.user .createOp = .error .authorizationError
    ∧ authorize Role.user .updateOp = .error .authorizationError
    ∧ authorize Role.user .deleteOp = .error .authorizationError
    ∧ authorize Role.user .restockOp = .error .authorizationError
    ∧ authorize Role.user .purchaseOp = .ok ()
    ∧ authorize Role.user .listOp = .ok ()
    ∧ authorize Role.user .searchOp = .ok ()
    ∧ (∀ store id q, purchaseAs Role.user store id q = purchaseSweet store id q)
    ∧ (∀ store id q, purchaseAs Role.anonymous store id q =
        (.error .authorizationError, store)) := by
  refine ⟨?_, rfl, rfl, rfl, rfl, rfl, rfl, rfl, fun _ _ _ => rfl,
    fun _ _ _ => rfl⟩
  intro op
  cases op <;> rfl

/-- C6: for an existing record, restock with positive q succeeds and the
resulting stock is the old value plus exactly q; restock with zero or
negative q fails with ValidationError (and the restock form rejects such
quantities before any request is sent). -/
theorem restock_increments_or_fails (store : Store) (id : Nat) (q : Int)
    (r : Sweet) (hr : getById store id = some r) :
    (0 < q →
      restockSweet store id q =
        (.ok { r with quantityInStock := r.quantityInStock + q },
         replaceById store id { r with quantityInStock := r.quantityInStock + q }))
    ∧ (q ≤ 0 → restockSweet store id q = (.error .validationError, store))
    ∧ (q ≤ 0 → restockFormAccepts (some q) = false)
    ∧ restockFormAccepts none = false := by
  refine ⟨?_, ?_, ?_, rfl⟩
  · intro h
    simp only [restockSweet, hr]
    rw [if_neg (by omega)]
  · intro h
    simp only [restockSweet, hr]
    rw [if_pos h]
  · intro h
    simp [restockFormAccepts]
    omega

/-- C6 witness: restocking 4 onto a concrete record with stock 5 yields
stock 9, and restocking 0 fails with ValidationError. -/
theorem restock_increments_or_fails_witness :
    restockSweet [⟨1, "Chocolate Bar", "Chocolate", 2, 5⟩] 1 4 =
      (.ok ⟨1, "Chocolate Bar", "Chocolate", 2, 9⟩,
       [⟨1, "Chocolate Bar", "Chocolate", 2, 9⟩])
    ∧ restockSweet [⟨1, "Chocolate Bar", "Chocolate", 2, 5⟩] 1 0 =
      (.error .validationError, [⟨1, "Chocolate Bar", "Chocolate", 2, 5⟩]) := by
  constructor
  · have h := (restock_increments_or_fails
      [⟨1, "Chocolate Bar", "Chocolate", 2, 5⟩] 1 4
      ⟨1, "Chocolate Bar", "Chocolate", 2, 5⟩ rfl).1 (by decide)
    rw [h]; rfl
  · have h := (restock_increments_or_fails
      [⟨1, "Chocolate Bar", "Chocolate", 2, 5⟩] 1 0
      ⟨1, "Chocolate Bar", "Chocolate", 2, 5⟩ rfl).2.1 (by decide)
    rw [h]

/-- C7: after a successful delete(id), the record is gone and every
subsequent operation referencing that id, including a second delete,
purchase, restock and update, fails with NotFoundError; deletion is
terminal. -/
theorem delete_is_terminal (store : Store) (id : Nat) (q qty : Int)
    (name category : String) (p : ℚ)
    (h : (deleteRecord store id).1 = .ok ()) :
    getById (deleteRecord store id).2 id = none
    ∧ deleteRecord (deleteRecord store id).2 id =
        (.error .notFoundError, (deleteRecord store id).2)
    ∧ purchaseSweet (deleteRecord store id).2 id q =
        (.error .notFoundError, (deleteRecord store id).2)
    ∧ restockSweet (deleteRecord store id).2 id q =
        (.error .notFoundError, (deleteRecord store id).2)
    ∧ updateRecord (deleteRecord store id).2 id name category p qty =
        (.error .notFoundError, (deleteRecord store id).2) := by
  cases hg : getById store id with
  | none => simp [deleteRecord, hg] at h
  | some r =>
    have hs : (deleteRecord store id).2 = removeById store id := by
      simp [deleteRecord, hg]
    have hnone : getById (removeById store id) id = none :=
      getById_removeById store id
    rw [hs]
    exact ⟨hnone, by simp [deleteRecord, hnone], by simp [purchaseSweet, hnone],
      by simp [restockSweet, hnone], by simp [updateRecord, hnone]⟩

/-- C7 witness: deleting the single concrete record succeeds, after which a
second delete and a purchase of the same id fail with NotFoundError. -/
theorem delete_is_terminal_witness :
    getById (deleteRecord [⟨1, "Chocolate Bar", "Chocolate", 2, 5⟩] 1).2 1 =
      none
    ∧ deleteRecord (deleteRecord [⟨1, "Chocolate Bar", "Chocolate", 2, 5⟩] 1).2
        1 =
      (.error .notFoundError,
       (deleteRecord [⟨1, "Chocolate Bar", "Chocolate", 2, 5⟩] 1).2)
    ∧ purchaseSweet (deleteRecord [⟨1, "Chocolate Bar", "Chocolate", 2, 5⟩] 1).2
        1 3 =
      (.error .notFoundError,
       (deleteRecord [⟨1, "Chocolate Bar", "Chocolate", 2, 5⟩] 1).2)
    ∧ restockSweet (deleteRecord [⟨1, "Chocolate Bar", "Chocolate", 2, 5⟩] 1).2
        1 3 =
      (.error .notFoundError,
       (deleteRecord [⟨1, "Chocolate Bar", "Chocolate", 2, 5⟩] 1).2)
    ∧ updateRecord (deleteRecord [⟨1, "Chocolate Bar", "Chocolate", 2, 5⟩] 1).2
        1 "Gummy Bear" "Gummy" 1 3 =
      (.error .notFoundError,
       (deleteRecord [⟨1, "Chocolate Bar", "Chocolate", 2, 5⟩] 1).2) :=
  delete_is_terminal [⟨1, "Chocolate Bar", "Chocolate", 2, 5⟩] 1 3 3
    "Gummy Bear" "Gummy" 1 rfl

end SweetShop
